import Mathlib

/-!
Verification of the health-check execution and result-aggregation engine of
`cisco_health_monitor.py` (class `CiscoHealthMonitor` and `main`).

The Python code is shallowly embedded: the device session is an oracle
mapping a command text and a textfsm flag to an outcome, exceptions become
explicit outcome values, and the mutable monitor object (`self.config`,
`self.results`, `self.connection`) becomes an explicit `MonitorState`
threaded through the operations.
-/

/-- Status value stored in a command result dict: `success` or `failed`. -/
inductive Status
  | success
  | failed
deriving DecidableEq, Repr

/-- One entry of a checks `commands` list in the YAML configuration:
`command` is mandatory (`cmd_config[...]` indexing), `description` and
`parse` are read with `.get` and a default. -/
structure CommandSpec where
  command : String
  description : Option String
  parse : Option Bool
deriving DecidableEq, Repr

/-- The dict appended to `check_results[...]` for one executed command.
The Python code stores either an `output` key or an `error` key; both are
modelled as options. -/
structure CommandResult where
  command : String
  description : String
  output : Option String
  error : Option String
  status : Status
deriving DecidableEq, Repr

/-- One value of the `health_checks` mapping: `enabled` models the
truthiness of `.get` on the `enabled` key (absent means falsy), `commands`
models `.get` with default `[]`. -/
structure HealthCheckDef where
  enabled : Bool
  commands : List CommandSpec
deriving DecidableEq, Repr

/-- The `connection` section of the configuration. -/
structure ConnectionConfig where
  device_type : String
  timeout : Nat
  global_delay_factor : Nat
deriving DecidableEq, Repr

/-- The loaded YAML configuration. Python dicts preserve insertion order,
so `health_checks` is an ordered association list. `output_file_path`
models `config.get` on the output section followed by `.get` on the
file path key. -/
structure Config where
  connection : ConnectionConfig
  switch_info : List (String × String)
  health_checks : List (String × HealthCheckDef)
  output_file_path : Option String
deriving DecidableEq, Repr

/-- Outcome of one `send_command` round trip on the session: normal return
of the device output, or a raised exception carrying a message. -/
inductive ExecOutcome
  | ok (output : String)
  | err (msg : String)
deriving DecidableEq, Repr

/-- The netmiko session, abstracted as an oracle from command text and
textfsm flag to the outcome of `send_command`. -/
def Session : Type := String → Bool → ExecOutcome

/-- The dict built by `execute_health_check` for an enabled check. -/
structure CheckResult where
  check_name : String
  timestamp : String
  commands : List CommandResult
deriving DecidableEq, Repr

/-- The dict built by `execute_all_health_checks` and stored in
`self.results`. -/
structure RunResult where
  device_info : List (String × String)
  execution_time : String
  checks : List (String × CheckResult)
deriving DecidableEq, Repr

/-- The mutable attributes of a `CiscoHealthMonitor` object: `results`
starts as the falsy empty dict (modelled `none`), `connection` starts as
`None`. -/
structure MonitorState where
  config : Config
  results : Option RunResult
  connection : Option Session

/-- State of a freshly constructed monitor. -/
def initState (cfg : Config) : MonitorState :=
  { config := cfg, results := none, connection := none }

/-- Python `.get(name)` on an insertion-ordered dict of string keys. -/
def dictGet {α : Type} (name : String) : List (String × α) → Option α
  | [] => none
  | (k, v) :: rest => if k = name then some v else dictGet name rest

/-- Body of the per-command loop of `execute_health_check`: send the
command with the parse flag, and append a success dict holding `output`
or a failure dict holding `error`. -/
def runCommand (exec : Session) (cmd : CommandSpec) : CommandResult :=
  match exec cmd.command (cmd.parse.getD false) with
  | .ok output =>
      { command := cmd.command, description := cmd.description.getD ""
        output := some output, error := none, status := .success }
  | .err e =>
      { command := cmd.command, description := cmd.description.getD ""
        output := none, error := some e, status := .failed }

/-- Method `execute_health_check`: returns the empty dict (modelled
`none`) when there is no active connection, when the named check is
absent from `health_checks`, or when it is not enabled; otherwise builds
the check dict with one command result per command spec, in order. -/
def execute_health_check (s : MonitorState) (t : String) (name : String) :
    Option CheckResult :=
  match s.connection with
  | none => none
  | some exec =>
    match dictGet name s.config.health_checks with
    | none => none
    | some hc =>
      if hc.enabled then
        some { check_name := name, timestamp := t
               commands := hc.commands.map (runCommand exec) }
      else none

/-- Loop of `execute_all_health_checks` over the keys of `health_checks`:
a check result is added under its name only when the returned dict is
truthy. -/
def buildChecks (s : MonitorState) (ct : String → String) :
    List String → List (String × CheckResult)
  | [] => []
  | k :: ks =>
    match execute_health_check s (ct k) k with
    | some r => (k, r) :: buildChecks s ct ks
    | none => buildChecks s ct ks

/-- Method `execute_all_health_checks`: copies `switch_info`, stamps the
run, iterates the configured check names, and stores the aggregate in
`self.results`. `et` is the run timestamp and `ct` gives the per-check
timestamp taken at each check start. -/
def execute_all_health_checks (s : MonitorState) (et : String)
    (ct : String → String) : MonitorState × RunResult :=
  let r : RunResult :=
    { device_info := s.config.switch_info
      execution_time := et
      checks := buildChecks s ct (s.config.health_checks.map Prod.fst) }
  ({ s with results := some r }, r)

/-- Outcome of the file write attempted inside the `try` block of
`save_results`. -/
inductive WriteOutcome
  | ok
  | ioError (msg : String)
deriving DecidableEq, Repr

/-- Method `save_results`: returns `None` when `self.results` is falsy,
otherwise resolves the output directory, builds the timestamped file
name, and returns the path on success or `None` when the write raises.
`self.results` is never written to. -/
def save_results (s : MonitorState) (w : WriteOutcome) (fts : String)
    (output_dir : Option String) : MonitorState × Option String :=
  match s.results with
  | none => (s, none)
  | some _ =>
    let dir :=
      match output_dir with
      | some d => d
      | none => s.config.output_file_path.getD "./output"
    let filepath := dir ++ "/cisco9300_health_" ++ fts ++ ".json"
    match w with
    | .ok => (s, some filepath)
    | .ioError _ => (s, none)

/-- Method `disconnect`: calls the teardown of the underlying session
when `self.connection` is truthy. The returned flag records whether the
teardown was invoked; the attribute itself is never cleared. -/
def disconnect (s : MonitorState) : MonitorState × Bool :=
  match s.connection with
  | some _ => (s, true)
  | none => (s, false)

/-- The dict returned by `analyze_thresholds`. -/
structure ThresholdAnalysis where
  alerts : List String
deriving DecidableEq, Repr

/-- Method `analyze_thresholds`: the placeholder builds an empty alert
list and returns it. -/
def analyze_thresholds (_ : MonitorState) : ThresholdAnalysis :=
  { alerts := [] }

/-- Outcome of `connect_to_device`: the `ConnectHandler` call raises one
of the three caught exception classes, or succeeds; when a secret is
given, `enable` can then raise (caught by the generic handler, with the
connection attribute already assigned). -/
inductive ConnectOutcome
  | timeout
  | authFailure
  | otherError
  | enableFailure
  | ok
deriving DecidableEq, Repr

/-- Method `connect_to_device`: assigns `self.connection` exactly when
`ConnectHandler` returned, and reports `True` only on full success. -/
def connect_to_device (s : MonitorState) (sess : Session)
    (o : ConnectOutcome) : MonitorState × Bool :=
  match o with
  | .timeout => (s, false)
  | .authFailure => (s, false)
  | .otherError => (s, false)
  | .enableFailure => ({ s with connection := some sess }, false)
  | .ok => ({ s with connection := some sess }, true)

/-- Whether a session object was created by `connect_to_device` under the
given outcome. -/
def sessionCreated : ConnectOutcome → Bool
  | .ok => true
  | .enableFailure => true
  | _ => false

/-- Fate of the `try` body of `main` after a successful connect: it runs
to completion with some write outcome for `save_results`, or it is cut
short by `KeyboardInterrupt` or by another exception, both caught by the
`except` clauses. -/
inductive BodyFate
  | normal (w : WriteOutcome)
  | interrupt
  | exception
deriving DecidableEq, Repr

/-- Observable steps of one `main` run. -/
inductive MainEvent
  | connectResult (ok : Bool)
  | executeChecks
  | saveAttempt (ok : Bool)
  | analyzeStep
  | disconnectInvoked (teardown : Bool)
deriving DecidableEq, Repr

/-- Recognizer for the cleanup event. -/
def MainEvent.isDisconnect : MainEvent → Bool
  | .disconnectInvoked _ => true
  | _ => false

/-- Function `main` after credential acquisition: the `try` body connects
and returns early on failure, otherwise executes all checks, saves, and
analyzes, unless interrupted or failed partway; the `finally` clause
invokes `disconnect` on every one of these paths. Returns the final
monitor state and the event trace. -/
def mainRun (cfg : Config) (sess : Session) (o : ConnectOutcome)
    (fate : BodyFate) (et fts : String) (ct : String → String) :
    MonitorState × List MainEvent :=
  let s0 := initState cfg
  let step1 := connect_to_device s0 sess o
  let s1 := step1.1
  let ok := step1.2
  let body : MonitorState × List MainEvent :=
    if ok then
      match fate with
      | .normal w =>
        let step2 := execute_all_health_checks s1 et ct
        let step3 := save_results step2.1 w fts none
        let _a := analyze_thresholds step3.1
        (step3.1, [MainEvent.executeChecks,
                   MainEvent.saveAttempt step3.2.isSome,
                   MainEvent.analyzeStep])
      | .interrupt => (s1, [MainEvent.executeChecks])
      | .exception => (s1, [MainEvent.executeChecks])
    else (s1, [])
  let fin := disconnect body.1
  (fin.1,
   MainEvent.connectResult ok ::
     body.2 ++ [MainEvent.disconnectInvoked fin.2])

/-! ## Helper lemmas -/

/-- The command text of a command result always equals the spec text. -/
theorem runCommand_command (exec : Session) (c : CommandSpec) :
    (runCommand exec c).command = c.command := by
  unfold runCommand
  cases exec c.command (c.parse.getD false) <;> rfl

/-- Characterization of `execute_health_check` on an enabled check over an
active session. -/
theorem execute_health_check_enabled
    (s : MonitorState) (exec : Session) (t name : String)
    (hc : HealthCheckDef)
    (hconn : s.connection = some exec)
    (hget : dictGet name s.config.health_checks = some hc)
    (hen : hc.enabled = true) :
    execute_health_check s t name =
      some { check_name := name, timestamp := t
             commands := hc.commands.map (runCommand exec) } := by
  unfold execute_health_check
  rw [hconn, hget]
  simp [hen]

/-- An absent or disabled check yields the empty dict whatever the
connection state. -/
theorem execute_health_check_none_of_disabled
    (s : MonitorState) (t name : String)
    (h : dictGet name s.config.health_checks = none ∨
         ∃ hc, dictGet name s.config.health_checks = some hc ∧
           hc.enabled = false) :
    execute_health_check s t name = none := by
  unfold execute_health_check
  cases hconn : s.connection with
  | none => rfl
  | some exec =>
    rcases h with h | ⟨hc, hget, hen⟩
    · rw [h]
    · rw [hget]
      simp [hen]

/-- A name whose per-check execution yields the empty dict never appears
in the aggregated checks. -/
theorem buildChecks_dictGet_none
    (s : MonitorState) (ct : String → String) (name : String)
    (hnone : execute_health_check s (ct name) name = none) :
    ∀ ks, dictGet name (buildChecks s ct ks) = none := by
  intro ks
  induction ks with
  | nil => rfl
  | cons k ks ih =>
    by_cases hk : k = name
    · subst hk
      simpa [buildChecks, hnone] using ih
    · cases hres : execute_health_check s (ct k) k with
      | none => simpa [buildChecks, hres] using ih
      | some r => simpa [buildChecks, hres, dictGet, hk] using ih

/-- A name whose per-check execution yields a truthy dict appears in the
aggregated checks with exactly that dict, provided the name is iterated. -/
theorem buildChecks_dictGet_some
    (s : MonitorState) (ct : String → String) (name : String)
    (r : CheckResult)
    (hsome : execute_health_check s (ct name) name = some r) :
    ∀ ks, name ∈ ks → dictGet name (buildChecks s ct ks) = some r := by
  intro ks hmem
  induction ks with
  | nil => cases hmem
  | cons k ks ih =>
    by_cases hk : k = name
    · subst hk
      simp [buildChecks, hsome, dictGet]
    · have hm : name ∈ ks := by
        rcases List.mem_cons.1 hmem with h | h
        · exact absurd h.symm hk
        · exact h
      cases hres : execute_health_check s (ct k) k with
      | none => simpa [buildChecks, hres] using ih hm
      | some rk => simpa [buildChecks, hres, dictGet, hk] using ih hm

/-- A successful dict lookup means the key is among the iterated keys. -/
theorem dictGet_mem_keys {α : Type} (name : String)
    (l : List (String × α)) (v : α) (h : dictGet name l = some v) :
    name ∈ l.map Prod.fst := by
  induction l with
  | nil => simp [dictGet] at h
  | cons p l ih =>
    rcases p with ⟨k, w⟩
    by_cases hk : k = name
    · subst hk
      simp
    · simp only [dictGet, if_neg hk] at h
      simpa using Or.inr (ih h)

/-- With no connection the per-check loop aggregates nothing. -/
theorem buildChecks_no_conn (cfg : Config) (res : Option RunResult)
    (ct : String → String) (ks : List String) :
    buildChecks { config := cfg, results := res, connection := none } ct ks
      = [] := by
  induction ks with
  | nil => rfl
  | cons k ks ih => simpa [buildChecks, execute_health_check] using ih

/-! ## Concrete instances used by witnesses and counterexamples -/

/-- Example session: one command succeeds, every other command raises. -/
def sessEx : Session :=
  fun c _ => if c = "show version" then .ok "Cisco IOS XE" else .err "boom"

/-- Example command spec that succeeds under `sessEx`. -/
def specOk : CommandSpec :=
  { command := "show version", description := some "Software version"
    parse := none }

/-- Example command spec that fails under `sessEx`. -/
def specBad : CommandSpec :=
  { command := "show env all", description := none, parse := some false }

/-- Example configuration with an enabled check, a disabled check, and an
enabled check with no commands. -/
def cfgEx : Config :=
  { connection :=
      { device_type := "cisco_xe", timeout := 60, global_delay_factor := 2 }
    switch_info := [("hostname", "sw1")]
    health_checks :=
      [("system_health", { enabled := true, commands := [specBad, specOk] }),
       ("interface_status", { enabled := false, commands := [specOk] }),
       ("cpu_memory", { enabled := true, commands := [] })]
    output_file_path := some "./output" }

/-- Example monitor state with an active session. -/
def stateEx : MonitorState :=
  { config := cfgEx, results := none, connection := some sessEx }

/-- Example run result, as stored after executing all checks of `cfgEx`. -/
def runResultEx : RunResult :=
  (execute_all_health_checks stateEx "t0" (fun _ => "t1")).2

/-- Example monitor state holding computed results. -/
def stateWithResultsEx : MonitorState :=
  { config := cfgEx, results := some runResultEx, connection := some sessEx }

/-! ## Claim theorems -/

/-- Claim C8: with no threshold rules configured (the only behavior the
code has), `analyze_thresholds` returns an empty alert sequence for every
monitor state, hence for every possible run result it may hold. -/
theorem analyze_thresholds_no_rules_empty (s : MonitorState) :
    (analyze_thresholds s).alerts = [] := rfl

/-- Claim C9: with the connection unset, executing any named health check
returns the empty dict rather than raising, and executing all health
checks yields a run result whose checks mapping is empty. -/
theorem no_connection_empty_results
    (cfg : Config) (res : Option RunResult) (t name et : String)
    (ct : String → String) :
    execute_health_check
        { config := cfg, results := res, connection := none } t name = none ∧
    (execute_all_health_checks
        { config := cfg, results := res, connection := none } et ct).2.checks
      = [] := by
  constructor
  · rfl
  · simpa [execute_all_health_checks] using
      buildChecks_no_conn cfg res ct (cfg.health_checks.map Prod.fst)

/-- Claim C5 counterexample: from a state in which a session was created,
a second `disconnect` after a completed `disconnect` re-invokes the
underlying session teardown, because the connection attribute is never
cleared; the claimed idempotency fails. -/
theorem disconnect_second_call_reinvokes_teardown :
    (disconnect (disconnect stateEx).1).2 = true := rfl

/-- Claim C5 (amended): `disconnect` leaves the monitor state unchanged —
in particular the connection attribute stays set — and invokes the
underlying teardown exactly when a connection is present; consequently
every repeated invocation after a session was created re-invokes the
teardown rather than being a no-op. -/
theorem disconnect_state_and_teardown (s : MonitorState) :
    (disconnect s).1 = s ∧
    (disconnect s).2 = s.connection.isSome ∧
    (disconnect (disconnect s).1).2 = s.connection.isSome := by
  rcases s with ⟨cfg, res, conn⟩
  cases conn <;> simp [disconnect]

/-- Claim C7: when the file write raises, `save_results` returns no path,
and the monitor state — in particular the computed run result it holds —
is left unchanged. -/
theorem save_failure_preserves_results
    (s : MonitorState) (r : RunResult) (msg fts : String)
    (d : Option String) (hres : s.results = some r) :
    (save_results s (.ioError msg) fts d).2 = none ∧
    (save_results s (.ioError msg) fts d).1 = s ∧
    (save_results s (.ioError msg) fts d).1.results = some r := by
  refine ⟨?_, ?_, ?_⟩ <;> simp [save_results, hres]

/-- Claim C7 witness: the theorem applied to a concrete state holding a
computed run result. -/
theorem save_failure_preserves_results_witness :
    stateWithResultsEx.results = some runResultEx ∧
    ((save_results stateWithResultsEx (.ioError "disk full") "ts" none).2
        = none ∧
      (save_results stateWithResultsEx (.ioError "disk full") "ts" none).1
        = stateWithResultsEx ∧
      (save_results stateWithResultsEx
          (.ioError "disk full") "ts" none).1.results = some runResultEx) :=
  ⟨rfl, save_failure_preserves_results stateWithResultsEx runResultEx
    "disk full" "ts" none rfl⟩

/-- The enabled check of `cfgEx` whose first command fails. -/
def hcSystemEx : HealthCheckDef :=
  { enabled := true, commands := [specBad, specOk] }

/-- The disabled check of `cfgEx`. -/
def hcIfaceEx : HealthCheckDef :=
  { enabled := false, commands := [specOk] }

/-- The enabled check of `cfgEx` with no commands. -/
def hcCpuEx : HealthCheckDef :=
  { enabled := true, commands := [] }

/-- Claim C2: executing an enabled check with N command specs over an
active session yields a check dict whose commands list has exactly N
entries, the i-th of which records the i-th spec in declaration order
with the same command text, whatever the individual outcomes. -/
theorem check_commands_length_and_order
    (s : MonitorState) (exec : Session) (t name : String)
    (hc : HealthCheckDef)
    (hconn : s.connection = some exec)
    (hget : dictGet name s.config.health_checks = some hc)
    (hen : hc.enabled = true) :
    ∃ r, execute_health_check s t name = some r ∧
      r.commands.length = hc.commands.length ∧
      ∀ i, i < hc.commands.length →
        ∃ c, hc.commands[i]? = some c ∧
          r.commands[i]? = some (runCommand exec c) ∧
          (runCommand exec c).command = c.command := by
  refine ⟨_, execute_health_check_enabled s exec t name hc hconn hget hen,
    by simp, ?_⟩
  intro i hi
  refine ⟨hc.commands[i], List.getElem?_eq_getElem hi, ?_,
    runCommand_command exec _⟩
  simp [List.getElem?_map, List.getElem?_eq_getElem hi]

/-- Claim C2 witness: the theorem applied to the two-command enabled
check of the example configuration. -/
theorem check_commands_length_and_order_witness :
    (stateEx.connection = some sessEx ∧
      dictGet "system_health" stateEx.config.health_checks =
        some hcSystemEx ∧
      hcSystemEx.enabled = true) ∧
    ∃ r, execute_health_check stateEx "t1" "system_health" = some r ∧
      r.commands.length = hcSystemEx.commands.length ∧
      ∀ i, i < hcSystemEx.commands.length →
        ∃ c, hcSystemEx.commands[i]? = some c ∧
          r.commands[i]? = some (runCommand sessEx c) ∧
          (runCommand sessEx c).command = c.command :=
  ⟨⟨rfl, by decide, rfl⟩,
    check_commands_length_and_order stateEx sessEx "t1" "system_health"
      hcSystemEx rfl (by decide) rfl⟩

/-- Claim C3: every command dict produced by check execution has exactly
one of the output and error fields populated, consistently with its
status: success comes with an output and no error, failure with an error
and no output. -/
theorem command_result_output_error_exclusive
    (s : MonitorState) (t name : String) (r : CheckResult)
    (cr : CommandResult)
    (hr : execute_health_check s t name = some r)
    (hcr : cr ∈ r.commands) :
    (cr.status = .success ∧ cr.output.isSome ∧ cr.error = none) ∨
    (cr.status = .failed ∧ cr.error.isSome ∧ cr.output = none) := by
  unfold execute_health_check at hr
  cases hconn : s.connection with
  | none => simp [hconn] at hr
  | some exec =>
    simp only [hconn] at hr
    cases hget : dictGet name s.config.health_checks with
    | none => simp [hget] at hr
    | some hc =>
      simp only [hget] at hr
      by_cases hen : hc.enabled
      · rw [if_pos hen] at hr
        obtain rfl := Option.some.inj hr
        obtain ⟨c, _hcmem, rfl⟩ := List.mem_map.1 hcr
        unfold runCommand
        cases hout : exec c.command (c.parse.getD false) with
        | ok output => left; simp
        | err e => right; simp
      · rw [if_neg hen] at hr
        cases hr

/-- Claim C3 witness: the theorem applied to the failed command dict of
the example check execution. -/
theorem command_result_output_error_exclusive_witness :
    (execute_health_check stateEx "t1" "system_health" =
        some { check_name := "system_health", timestamp := "t1"
               commands := [runCommand sessEx specBad,
                            runCommand sessEx specOk] } ∧
      runCommand sessEx specBad ∈
        [runCommand sessEx specBad, runCommand sessEx specOk]) ∧
    (((runCommand sessEx specBad).status = .success ∧
        (runCommand sessEx specBad).output.isSome ∧
        (runCommand sessEx specBad).error = none) ∨
      ((runCommand sessEx specBad).status = .failed ∧
        (runCommand sessEx specBad).error.isSome ∧
        (runCommand sessEx specBad).output = none)) :=
  ⟨⟨by decide, by decide⟩,
    command_result_output_error_exclusive stateEx "t1" "system_health"
      { check_name := "system_health", timestamp := "t1"
        commands := [runCommand sessEx specBad, runCommand sessEx specOk] }
      (runCommand sessEx specBad) (by decide) (by decide)⟩

/-- Claim C4: a check name that is absent from the health checks mapping
or not enabled never appears in the checks mapping of the run result
built by executing all health checks. -/
theorem disabled_or_undefined_checks_omitted
    (s : MonitorState) (et : String) (ct : String → String) (name : String)
    (h : dictGet name s.config.health_checks = none ∨
         ∃ hc, dictGet name s.config.health_checks = some hc ∧
           hc.enabled = false) :
    dictGet name (execute_all_health_checks s et ct).2.checks = none := by
  have hnone := execute_health_check_none_of_disabled s (ct name) name h
  simpa [execute_all_health_checks] using
    buildChecks_dictGet_none s ct name hnone
      (s.config.health_checks.map Prod.fst)

/-- Claim C4 witness: the theorem applied to the disabled check of the
example configuration. -/
theorem disabled_or_undefined_checks_omitted_witness :
    (dictGet "interface_status" stateEx.config.health_checks =
        some hcIfaceEx ∧ hcIfaceEx.enabled = false) ∧
    dictGet "interface_status"
      (execute_all_health_checks stateEx "t0" (fun _ => "t1")).2.checks
      = none :=
  ⟨⟨by decide, rfl⟩,
    disabled_or_undefined_checks_omitted stateEx "t0" (fun _ => "t1")
      "interface_status" (Or.inr ⟨hcIfaceEx, by decide, rfl⟩)⟩

/-- Claim C10: an enabled check whose commands list is empty yields a
truthy check dict with an empty commands list, and that dict is included
in the run result under the check name. -/
theorem empty_commands_check_included
    (s : MonitorState) (exec : Session) (et : String) (ct : String → String)
    (name : String) (hc : HealthCheckDef)
    (hconn : s.connection = some exec)
    (hget : dictGet name s.config.health_checks = some hc)
    (hen : hc.enabled = true)
    (hemp : hc.commands = []) :
    execute_health_check s (ct name) name =
      some { check_name := name, timestamp := ct name, commands := [] } ∧
    dictGet name (execute_all_health_checks s et ct).2.checks =
      some { check_name := name, timestamp := ct name, commands := [] } := by
  have hx := execute_health_check_enabled s exec (ct name) name hc
    hconn hget hen
  rw [hemp] at hx
  simp only [List.map_nil] at hx
  refine ⟨hx, ?_⟩
  have hmem := dictGet_mem_keys name s.config.health_checks hc hget
  simpa [execute_all_health_checks] using
    buildChecks_dictGet_some s ct name _ hx
      (s.config.health_checks.map Prod.fst) hmem

/-- Claim C10 witness: the theorem applied to the command-less enabled
check of the example configuration. -/
theorem empty_commands_check_included_witness :
    (stateEx.connection = some sessEx ∧
      dictGet "cpu_memory" stateEx.config.health_checks = some hcCpuEx ∧
      hcCpuEx.enabled = true ∧ hcCpuEx.commands = []) ∧
    (execute_health_check stateEx "t1" "cpu_memory" =
        some { check_name := "cpu_memory", timestamp := "t1"
               commands := [] } ∧
      dictGet "cpu_memory"
          (execute_all_health_checks stateEx "t0" (fun _ => "t1")).2.checks =
        some { check_name := "cpu_memory", timestamp := "t1"
               commands := [] }) :=
  ⟨⟨rfl, by decide, rfl, rfl⟩,
    empty_commands_check_included stateEx sessEx "t0" (fun _ => "t1")
      "cpu_memory" hcCpuEx rfl (by decide) rfl rfl⟩

/-- Claim C1: when a command of an enabled check fails over an active
session, the failure is recorded inline as a failed command dict, every
command of the check (the subsequent ones included) is still executed
and recorded, and every enabled check of the run is still executed and
aggregated; no per-command failure aborts the remaining work. -/
theorem command_failure_is_isolated
    (s : MonitorState) (exec : Session) (et : String) (ct : String → String)
    (name : String) (hc : HealthCheckDef) (i : Nat) (c : CommandSpec)
    (e : String)
    (hconn : s.connection = some exec)
    (hget : dictGet name s.config.health_checks = some hc)
    (hen : hc.enabled = true)
    (hci : hc.commands[i]? = some c)
    (hfail : exec c.command (c.parse.getD false) = .err e) :
    ∃ r, execute_health_check s (ct name) name = some r ∧
      r.commands[i]? = some
        { command := c.command, description := c.description.getD ""
          output := none, error := some e, status := .failed } ∧
      (∀ (j : Nat) (cj : CommandSpec), hc.commands[j]? = some cj →
        r.commands[j]? = some (runCommand exec cj)) ∧
      (∀ name2 hc2, dictGet name2 s.config.health_checks = some hc2 →
        hc2.enabled = true →
        dictGet name2 (execute_all_health_checks s et ct).2.checks =
          some { check_name := name2, timestamp := ct name2
                 commands := hc2.commands.map (runCommand exec) }) := by
  refine ⟨_, execute_health_check_enabled s exec (ct name) name hc
    hconn hget hen, ?_, ?_, ?_⟩
  · show (hc.commands.map (runCommand exec))[i]? = _
    simp [List.getElem?_map, hci, runCommand, hfail]
  · intro j cj hcj
    show (hc.commands.map (runCommand exec))[j]? = _
    simp [List.getElem?_map, hcj]
  · intro name2 hc2 hget2 hen2
    have hx := execute_health_check_enabled s exec (ct name2) name2 hc2
      hconn hget2 hen2
    have hmem := dictGet_mem_keys name2 s.config.health_checks hc2 hget2
    simpa [execute_all_health_checks] using
      buildChecks_dictGet_some s ct name2 _ hx
        (s.config.health_checks.map Prod.fst) hmem

/-- Claim C1 witness: the theorem applied to the example check whose
first command fails; the second command and the other enabled check are
still executed. -/
theorem command_failure_is_isolated_witness :
    (stateEx.connection = some sessEx ∧
      dictGet "system_health" stateEx.config.health_checks =
        some hcSystemEx ∧
      hcSystemEx.enabled = true ∧
      hcSystemEx.commands[0]? = some specBad ∧
      sessEx specBad.command (specBad.parse.getD false) = .err "boom") ∧
    ∃ r, execute_health_check stateEx "t1" "system_health" = some r ∧
      r.commands[0]? = some
        { command := specBad.command
          description := specBad.description.getD ""
          output := none, error := some "boom", status := .failed } ∧
      (∀ (j : Nat) (cj : CommandSpec), hcSystemEx.commands[j]? = some cj →
        r.commands[j]? = some (runCommand sessEx cj)) ∧
      (∀ name2 hc2, dictGet name2 stateEx.config.health_checks = some hc2 →
        hc2.enabled = true →
        dictGet name2
            (execute_all_health_checks stateEx "t0"
              (fun _ => "t1")).2.checks =
          some { check_name := name2, timestamp := "t1"
                 commands := hc2.commands.map (runCommand sessEx) }) :=
  ⟨⟨rfl, by decide, rfl, by decide, by decide⟩,
    command_failure_is_isolated stateEx sessEx "t0" (fun _ => "t1")
      "system_health" hcSystemEx 0 specBad "boom"
      rfl (by decide) rfl (by decide) (by decide)⟩

/-- Claim C6: on every path of a run — the three connect failures, the
enable failure, interrupt, an exception during the body, and completion
with either save outcome — the event trace of `main` contains exactly one
disconnect invocation, it is the final event, and its teardown flag is
set exactly when a session object was created, so no path ends with a
created session still connected and no path invokes disconnect twice. -/
theorem main_disconnect_exactly_once
    (cfg : Config) (sess : Session) (o : ConnectOutcome) (fate : BodyFate)
    (et fts : String) (ct : String → String) :
    (mainRun cfg sess o fate et fts ct).2.countP MainEvent.isDisconnect
        = 1 ∧
    (mainRun cfg sess o fate et fts ct).2.getLast? =
      some (MainEvent.disconnectInvoked (sessionCreated o)) := by
  rcases o <;> rcases fate with w | _ | _ <;> try rcases w
  all_goals exact ⟨rfl, rfl⟩
